import Mathlib

/-!
Shallow embedding of the candidate-screening service: the interview
orchestrator and the MCQ orchestrator from `main.py`, together with the
pure parts of `services/ai_agent.py` and `services/mcq_agent.py`.
External collaborators (the LLM completion service and the document
store) are modelled as oracle parameters: the text the completion
service would return is passed in as an argument, and the stored report
that the database would return is passed in as an `Option` value.  The
outcome of an endpoint records what it would write back and whether a
narrative-generation call was issued.
-/

namespace ChatScreening

/-- A chat message in the interview transcript (`models.ChatMessage`,
timestamp omitted as no claim concerns it). -/
structure ChatMessage where
  sender : String
  text : String
deriving Repr, DecidableEq

/-- The conversational interview session record (`models.InterviewSession`,
timestamps omitted). -/
structure InterviewSession where
  session_id : String
  candidate_name : String
  candidate_email : String
  resume_text : String
  job_description : String
  messages : List ChatMessage
  question_count : Nat
  is_complete : Bool
deriving Repr, DecidableEq

/-- The response body of the chat endpoint (`models.ChatResponse`). -/
structure ChatResponse where
  ai_reply : String
  session_id : String
  question_number : Nat
  is_complete : Bool
deriving Repr, DecidableEq

/-- Outcome of one chat turn: an HTTP error or a response body. -/
inductive ChatResult where
  | httpError (status : Nat) (detail : String)
  | ok (resp : ChatResponse)
deriving Repr, DecidableEq

/-- One accepted or rejected chat turn (`main.py`, `chat`).  The session is
read from the store; `ai_reply` is the oracle for the completion
collaborator's next-question text.  Returns the HTTP outcome together with
the session state written back to the store (unchanged on rejection). -/
def chat (s : InterviewSession) (user_message : String) (ai_reply : String) :
    ChatResult × InterviewSession :=
  if s.is_complete then
    (ChatResult.httpError 400 "Interview already completed. Please request final report.", s)
  else
    let messages := s.messages ++ [{ sender := "Candidate", text := user_message }]
    let messages := messages ++ [{ sender := "AI", text := ai_reply }]
    let question_count := s.question_count + 1
    let is_complete := decide (6 ≤ question_count)
    let s2 := { s with messages := messages, question_count := question_count,
                       is_complete := is_complete }
    (ChatResult.ok { ai_reply := ai_reply, session_id := s.session_id,
                     question_number := question_count, is_complete := is_complete }, s2)

/-- The final interview evaluation report (`models.FinalReport`,
timestamp omitted; the recommendation enum is kept as its string value). -/
structure FinalReport where
  session_id : String
  candidate_name : String
  skill_match : Nat
  experience_match : Nat
  communication : Nat
  problem_solving : Nat
  overall_fit : Nat
  recommendation : String
  strengths : List String
  weaknesses : List String
  detailed_feedback : String
  transcript : List ChatMessage
deriving Repr, DecidableEq

/-- Outcome value of the final-report endpoint. -/
inductive FinalReportResult where
  | httpError (status : Nat) (detail : String)
  | report (r : FinalReport)
deriving Repr, DecidableEq

/-- What the final-report endpoint did: the HTTP outcome, whether a
narrative-generation completion call was issued, and the report written to
the reports store, if any. -/
structure FinalReportOutcome where
  result : FinalReportResult
  genCalled : Bool
  savedReport : Option FinalReport
deriving Repr, DecidableEq

/-- The parameter names declared by `AIAgentService.generate_final_report`
(`services/ai_agent.py`, lines 80-86): `self` aside, it declares exactly
these keyword-bindable parameters. -/
def aiAgent_generate_final_report_params : List String :=
  ["candidate_name", "resume", "job_description", "conversation_history"]

/-- The keyword-argument names the orchestrator supplies at the call site
(`main.py`, lines 248-254). -/
def finalReport_call_kwargs : List String :=
  ["candidate_name", "resume", "job_description", "conversation_history",
   "questions_answered"]

/-- Python keyword-argument binding: the call raises a TypeError naming the
first supplied keyword that the callee does not declare; otherwise the call
proceeds. -/
def bindKwargs (params kwargs : List String) : Except String Unit :=
  match kwargs.find? (fun k => !(params.contains k)) with
  | some k => Except.error ("got an unexpected keyword argument " ++ k)
  | none => Except.ok ()

/-- The final-report endpoint (`main.py`, `generate_final_report`).  The
session is read from the store, `stored` is the report already in the
reports store if any, and `gen` is the oracle for the report the generator
would build if its call succeeded.  Mirrors the source order: eligibility
gate, idempotent short-circuit, then the generator call, whose keyword
binding fails (TypeError caught by the blanket handler as a 500). -/
def generate_final_report (s : InterviewSession) (stored : Option FinalReport)
    (gen : FinalReport) : FinalReportOutcome :=
  if s.question_count < 2 then
    { result := FinalReportResult.httpError 400
        ("Not enough data for evaluation. Only " ++ toString s.question_count ++
         "/6 questions answered. Please answer at least 2 questions."),
      genCalled := false, savedReport := none }
  else
    match stored with
    | some r => { result := FinalReportResult.report r, genCalled := false,
                  savedReport := none }
    | none =>
      match bindKwargs aiAgent_generate_final_report_params finalReport_call_kwargs with
      | Except.error e =>
        { result := FinalReportResult.httpError 500 ("Report generation failed: " ++ e),
          genCalled := false, savedReport := none }
      | Except.ok _ =>
        let r := { gen with session_id := s.session_id }
        { result := FinalReportResult.report r, genCalled := true,
          savedReport := some r }

/-- Recognizes the insufficient-data (eligibility-gate) rejection of the
final-report endpoint: the only client-error outcome it produces. -/
def isInsufficientDataError : FinalReportResult → Bool
  | FinalReportResult.httpError 400 _ => true
  | _ => false

/-- One labelled option of a stored MCQ question (an entry of the
`options` list in the question dicts produced by
`MCQAgentService.generate_mcq_questions`). -/
structure StoredOption where
  option : String
  text : String
deriving Repr, DecidableEq

/-- A stored MCQ question as kept in the session's `questions` list: ordinal,
prompt, options, designated correct label, explanation and category. -/
structure StoredQuestion where
  question_number : Nat
  question_text : String
  options : List StoredOption
  correct_option : String
  explanation : String
  category : String
deriving Repr, DecidableEq

/-- A submitted-answer record (`models.MCQAnswer`, timestamp omitted). -/
structure MCQAnswer where
  question_number : Nat
  question_text : String
  selected_option : String
  selected_text : String
  correct_option : String
  is_correct : Bool
  explanation : String
deriving Repr, DecidableEq

/-- The MCQ assessment session record (`models.MCQSession`, timestamps
omitted). -/
structure MCQSession where
  session_id : String
  candidate_name : String
  candidate_email : String
  resume_text : String
  job_description : String
  questions : List StoredQuestion
  answers : List MCQAnswer
  current_question_number : Nat
  is_complete : Bool
deriving Repr, DecidableEq

/-- A client-facing question payload (`models.MCQQuestion`): no correct
label, no explanation. -/
structure MCQQuestionOut where
  question_number : Nat
  question_text : String
  options : List StoredOption
  category : String
deriving Repr, DecidableEq

/-- The response body of the answer-submission endpoint
(`models.MCQResponse`). -/
structure MCQResponseOut where
  question : MCQQuestionOut
  session_id : String
  is_complete : Bool
  total_questions : Nat
deriving Repr, DecidableEq

/-- Outcome of one answer submission: an HTTP error or a response body. -/
inductive MCQSubmitResult where
  | httpError (status : Nat) (detail : String)
  | ok (resp : MCQResponseOut)
deriving Repr, DecidableEq

/-- Whether a submission outcome is an HTTP error. -/
def MCQSubmitResult.isError : MCQSubmitResult → Bool
  | MCQSubmitResult.httpError _ _ => true
  | MCQSubmitResult.ok _ => false

/-- Models Python str.upper as per-character basic-latin uppercasing (all
labels compared by the source are single latin letters). -/
def upper (s : String) : String := String.mk (s.data.map Char.toUpper)

/-- Embeds `MCQAgentService.evaluate_answer` (`services/mcq_agent.py`, lines
94-119): compare the submitted label case-insensitively against the stored
correct label, look up the selected option's display text (empty string
when no option carries the label), and build the answer record. -/
def evaluate_answer (question_data : StoredQuestion) (selected_option : String) :
    MCQAnswer :=
  let correct_option := question_data.correct_option
  let is_correct := upper selected_option == upper correct_option
  let selected_text :=
    match question_data.options.find?
        (fun opt => upper opt.option == upper selected_option) with
    | some opt => opt.text
    | none => ""
  { question_number := question_data.question_number
    question_text := question_data.question_text
    selected_option := upper selected_option
    selected_text := selected_text
    correct_option := upper correct_option
    is_correct := is_correct
    explanation := question_data.explanation }

/-- The answer-submission endpoint (`main.py`, `submit_mcq_answer`).  The
submitted question number comes off the wire as an integer, hence `Int`.
Returns the HTTP outcome together with the session state written back to
the store (unchanged on rejection). -/
def submit_mcq_answer (s : MCQSession) (question_number : Int)
    (selected_option : String) : MCQSubmitResult × MCQSession :=
  if s.is_complete then
    (MCQSubmitResult.httpError 400
      "MCQ test already completed. Please request evaluation report.", s)
  else if question_number ≠ (s.current_question_number : Int) + 1 then
    (MCQSubmitResult.httpError 400
      ("Expected answer for question " ++ toString (s.current_question_number + 1) ++
       ", got " ++ toString question_number), s)
  else
    let question_index := (question_number - 1).toNat
    if h : s.questions.length ≤ question_index then
      (MCQSubmitResult.httpError 400 "Invalid question number", s)
    else
      let question_data := s.questions.get ⟨question_index, by omega⟩
      let answer := evaluate_answer question_data selected_option
      let answers := s.answers ++ [answer]
      let current := s.current_question_number + 1
      let is_complete := decide (s.questions.length ≤ current)
      let s2 := { s with answers := answers, current_question_number := current,
                         is_complete := is_complete }
      if h2 : s.questions.length ≤ current then
        let done : MCQQuestionOut :=
          { question_number := 0
            question_text :=
              "Test completed! You can now request your evaluation report."
            options := []
            category := "Completion" }
        (MCQSubmitResult.ok
          { question := done
            session_id := s.session_id
            is_complete := true
            total_questions := 5 }, s2)
      else
        let nq := s.questions.get ⟨current, by omega⟩
        let nextq : MCQQuestionOut :=
          { question_number := nq.question_number
            question_text := nq.question_text
            options := nq.options
            category := nq.category }
        (MCQSubmitResult.ok
          { question := nextq
            session_id := s.session_id
            is_complete := false
            total_questions := 5 }, s2)

/-- The narrative part of an MCQ evaluation, as parsed from the completion
collaborator's JSON payload. -/
structure Assessment where
  overall_assessment : String
  cognitive_strengths : List String
  areas_for_improvement : List String
  recommendation : String
deriving Repr, DecidableEq

/-- The MCQ evaluation report (`models.MCQEvaluationReport`, timestamp
omitted).  `category_scores` models the Python dict as an insertion-ordered
association list `category ↦ (correct, total)`. -/
structure MCQEvaluationReport where
  session_id : String
  candidate_name : String
  total_questions : Nat
  correct_answers : Nat
  score_percentage : Rat
  category_scores : List (String × Nat × Nat)
  answers : List MCQAnswer
  overall_assessment : String
  cognitive_strengths : List String
  areas_for_improvement : List String
  recommendation : String
deriving Repr, DecidableEq

/-- One iteration of the category-wise loop in
`MCQAgentService.generate_evaluation_report` (`services/mcq_agent.py`,
lines 136-146): the category variable is assigned the literal `"General"`,
a fresh zero bucket is inserted when that key is absent, then the bucket's
total (and, on a correct answer, its correct count) is bumped. -/
def catStep (scores : List (String × Nat × Nat)) (answer : MCQAnswer) :
    List (String × Nat × Nat) :=
  let category := "General"
  let scores :=
    if scores.any (fun p => p.1 == category) then scores
    else scores ++ [(category, 0, 0)]
  scores.map (fun p =>
    if p.1 == category then
      (p.1, p.2.1 + (if answer.is_correct then 1 else 0), p.2.2 + 1)
    else p)

/-- The `category_scores` dict built by the report generator. -/
def category_scores (answers : List MCQAnswer) : List (String × Nat × Nat) :=
  answers.foldl catStep []

/-- Number of answers marked correct. -/
def countCorrect (answers : List MCQAnswer) : Nat :=
  (answers.filter (fun a => a.is_correct)).length

/-- Embeds `MCQAgentService.generate_evaluation_report` (`services/mcq_agent.py`,
lines 121-228): the deterministic scoring part is computed here and the
narrative fields come from the `assessment` oracle standing for the parsed
completion response.  The session id is left empty for the caller to set. -/
def generate_evaluation_report (candidate_name resume job_description : String)
    (answers : List MCQAnswer) (assessment : Assessment) : MCQEvaluationReport :=
  let total_questions := answers.length
  let correct_answers := countCorrect answers
  let score_percentage : Rat :=
    if 0 < total_questions then
      (correct_answers : Rat) / (total_questions : Rat) * 100
    else 0
  { session_id := ""
    candidate_name := candidate_name
    total_questions := total_questions
    correct_answers := correct_answers
    score_percentage := score_percentage
    category_scores := category_scores answers
    answers := answers
    overall_assessment := assessment.overall_assessment
    cognitive_strengths := assessment.cognitive_strengths
    areas_for_improvement := assessment.areas_for_improvement
    recommendation := assessment.recommendation }

/-- Outcome value of the MCQ-report endpoint. -/
inductive MCQReportResult where
  | httpError (status : Nat) (detail : String)
  | report (r : MCQEvaluationReport)
deriving Repr, DecidableEq

/-- What the MCQ-report endpoint did: the HTTP outcome, whether a
narrative-generation completion call was issued, and the report written to
the reports store, if any. -/
structure MCQReportOutcome where
  result : MCQReportResult
  genCalled : Bool
  savedReport : Option MCQEvaluationReport
deriving Repr, DecidableEq

/-- The MCQ-report endpoint (`main.py`, `generate_mcq_report`): completion
gate, idempotent short-circuit on a stored report, otherwise generate a
fresh report, stamp the session id, and save it. -/
def generate_mcq_report (s : MCQSession) (stored : Option MCQEvaluationReport)
    (assessment : Assessment) : MCQReportOutcome :=
  if !s.is_complete then
    { result := MCQReportResult.httpError 400
        ("MCQ test not complete. Only " ++ toString s.current_question_number ++
         "/5 questions answered."),
      genCalled := false, savedReport := none }
  else
    match stored with
    | some r => { result := MCQReportResult.report r, genCalled := false,
                  savedReport := none }
    | none =>
      let r0 := generate_evaluation_report s.candidate_name s.resume_text
        s.job_description s.answers assessment
      let r := { r0 with session_id := s.session_id }
      { result := MCQReportResult.report r, genCalled := true,
        savedReport := some r }

/-- A question as it appears in the dumped session dict: the
`correct_option` and `explanation` keys are optional because the detail
endpoint may pop them. -/
structure DumpedQuestion where
  question_number : Nat
  question_text : String
  options : List StoredOption
  correct_option : Option String
  explanation : Option String
  category : String
deriving Repr, DecidableEq

/-- Dump (`model_dump`) of a stored question: every key present. -/
def dumpQuestion (q : StoredQuestion) : DumpedQuestion :=
  { question_number := q.question_number
    question_text := q.question_text
    options := q.options
    correct_option := some q.correct_option
    explanation := some q.explanation
    category := q.category }

/-- Removal (`dict.pop`) of the answer-revealing keys from a dumped
question. -/
def popAnswerKeys (q : DumpedQuestion) : DumpedQuestion :=
  { q with correct_option := none, explanation := none }

/-- The session dict returned by the MCQ session-detail endpoint
(timestamps omitted). -/
structure MCQSessionDump where
  session_id : String
  candidate_name : String
  candidate_email : String
  resume_text : String
  job_description : String
  questions : List DumpedQuestion
  answers : List MCQAnswer
  current_question_number : Nat
  is_complete : Bool
deriving Repr, DecidableEq

/-- The MCQ session-detail endpoint (`main.py`,
`get_mcq_session_details`): dump the session and, while it is incomplete,
pop `correct_option` and `explanation` from every question in the list. -/
def get_mcq_session_details (s : MCQSession) : MCQSessionDump :=
  let questions := s.questions.map dumpQuestion
  let questions :=
    if !s.is_complete then questions.map popAnswerKeys else questions
  { session_id := s.session_id
    candidate_name := s.candidate_name
    candidate_email := s.candidate_email
    resume_text := s.resume_text
    job_description := s.job_description
    questions := questions
    answers := s.answers
    current_question_number := s.current_question_number
    is_complete := s.is_complete }

/-- Sum of the per-category correct counts of a category-scores dict. -/
def sumCorrect (scores : List (String × Nat × Nat)) : Nat :=
  (scores.map (fun p => p.2.1)).sum

/-- Sum of the per-category total counts of a category-scores dict. -/
def sumTotal (scores : List (String × Nat × Nat)) : Nat :=
  (scores.map (fun p => p.2.2)).sum

/-- A concrete fresh interview session, used to instantiate theorems. -/
def baseSession : InterviewSession :=
  { session_id := "interview-1"
    candidate_name := "Ada Lovelace"
    candidate_email := "ada@example.com"
    resume_text := "resume text"
    job_description := "a job description of fifty characters, give or take"
    messages := []
    question_count := 0
    is_complete := false }

/-- The base session after one answered question. -/
def oneAnsweredSession : InterviewSession := { baseSession with question_count := 1 }

/-- The base session after two answered questions. -/
def twoAnsweredSession : InterviewSession := { baseSession with question_count := 2 }

/-- The base session after six answered questions, marked complete. -/
def doneSession : InterviewSession :=
  { baseSession with question_count := 6, is_complete := true }

/-- A concrete report standing for what the generator would return if its
call could ever be bound. -/
def sampleGenReport : FinalReport :=
  { session_id := ""
    candidate_name := "Ada Lovelace"
    skill_match := 85
    experience_match := 78
    communication := 92
    problem_solving := 80
    overall_fit := 84
    recommendation := "Recommended for Next Round"
    strengths := ["clear communication"]
    weaknesses := ["limited cloud experience"]
    detailed_feedback := "solid candidate"
    transcript := [] }

/-- A concrete stored interview report, used to instantiate idempotence. -/
def storedInterviewReport : FinalReport :=
  { sampleGenReport with session_id := "interview-1" }

/-- A concrete narrative assessment standing for a parsed completion
response. -/
def sampleAssessment : Assessment :=
  { overall_assessment := "The candidate demonstrated sound reasoning."
    cognitive_strengths := ["logical reasoning"]
    areas_for_improvement := ["speed"]
    recommendation := "Proceed to technical interview round" }

/-- A concrete stored question whose category is Logical Reasoning. -/
def lrQuestion : StoredQuestion :=
  { question_number := 1
    question_text := "If all A are B, and some B are C, which statement must be true?"
    options :=
      [{ option := "A", text := "All A are C" },
       { option := "B", text := "Some A are C" },
       { option := "C", text := "No A are C" },
       { option := "D", text := "Cannot be determined" }]
    correct_option := "D"
    explanation := "Only D follows."
    category := "Logical Reasoning" }

/-- A fresh single-question MCQ session holding `lrQuestion`. -/
def lrSession : MCQSession :=
  { session_id := "mcq-1"
    candidate_name := "Ada Lovelace"
    candidate_email := "ada@example.com"
    resume_text := "resume text"
    job_description := "a job description of fifty characters, give or take"
    questions := [lrQuestion]
    answers := []
    current_question_number := 0
    is_complete := false }

/-- The session state after the one in-sequence correct submission: the
test is complete with a single correct answer on record. -/
def lrCompleted : MCQSession := (submit_mcq_answer lrSession 1 "D").2

/-- A concrete stored MCQ report, used to instantiate idempotence. -/
def storedMcqReport : MCQEvaluationReport :=
  { session_id := "mcq-1"
    candidate_name := "Ada Lovelace"
    total_questions := 1
    correct_answers := 1
    score_percentage := 100
    category_scores := [("General", 1, 1)]
    answers := lrCompleted.answers
    overall_assessment := "The candidate demonstrated sound reasoning."
    cognitive_strengths := ["logical reasoning"]
    areas_for_improvement := ["speed"]
    recommendation := "Proceed to technical interview round" }

/-- Claim C4: on every accepted chat turn the question counter increases by
exactly one, the response carries the new counter as `question_number`, the
returned and the persisted completion flag agree and are true exactly when
the new counter is at least 6; in particular a first turn on a fresh
session returns question number 1 with the flag false, and a turn taken at
counter 5 (the 6th accepted turn) returns the flag true. -/
theorem chat_turn_counter_and_completion (s : InterviewSession)
    (u a : String) (h : s.is_complete = false) :
    (chat s u a).2.question_count = s.question_count + 1 ∧
    (chat s u a).1 = ChatResult.ok
      { ai_reply := a
        session_id := s.session_id
        question_number := s.question_count + 1
        is_complete := decide (6 ≤ s.question_count + 1) } ∧
    (chat s u a).2.is_complete = decide (6 ≤ s.question_count + 1) ∧
    ((chat s u a).2.is_complete = true ↔ 6 ≤ s.question_count + 1) ∧
    (s.question_count = 0 →
      (chat s u a).1 = ChatResult.ok
        { ai_reply := a
          session_id := s.session_id
          question_number := 1
          is_complete := false }) ∧
    (s.question_count = 5 → (chat s u a).2.is_complete = true) := by
  refine ⟨?_, ?_, ?_, ?_, ?_, ?_⟩ <;> simp [chat, h]
  · intro h0
    simp [h0]
  · intro h5
    simp [h5]

/-- Witness for C4: the concrete fresh session accepts a turn and the
counter moves from 0 to 1. -/
theorem chat_turn_counter_and_completion_witness :
    baseSession.is_complete = false ∧
    (chat baseSession "hello" "first question").2.question_count =
      baseSession.question_count + 1 :=
  ⟨rfl, (chat_turn_counter_and_completion baseSession "hello" "first question" rfl).1⟩

/-- Claim C5: an answer submission on an incomplete MCQ session whose
question number differs from the current-question pointer plus one is
rejected with the out-of-sequence client error naming the expected and the
received ordinal, and the stored session state is returned unchanged. -/
theorem submit_out_of_sequence_rejected (s : MCQSession) (qn : Int)
    (sel : String) (hc : s.is_complete = false)
    (hqn : qn ≠ (s.current_question_number : Int) + 1) :
    submit_mcq_answer s qn sel =
      (MCQSubmitResult.httpError 400
        ("Expected answer for question " ++ toString (s.current_question_number + 1) ++
         ", got " ++ toString qn), s) := by
  simp [submit_mcq_answer, hc, hqn]

/-- Witness for C5: submitting for ordinal 3 on the fresh single-question
session (pointer 0) is rejected and leaves the session unchanged. -/
theorem submit_out_of_sequence_rejected_witness :
    submit_mcq_answer lrSession 3 "A" =
      (MCQSubmitResult.httpError 400
        ("Expected answer for question " ++ toString (lrSession.current_question_number + 1) ++
         ", got " ++ toString (3 : Int)), lrSession) :=
  submit_out_of_sequence_rejected lrSession 3 "A" rfl (by decide)

/-- Counterexample to claim C1 as stated: the session with exactly 2
answered questions is not rejected by the eligibility gate — the claimed
insufficient-data rejection citing 2 against a required minimum of 3 does
not occur. -/
theorem report_gate_at_two_counterexample :
    twoAnsweredSession.question_count = 2 ∧
    isInsufficientDataError
      (generate_final_report twoAnsweredSession none sampleGenReport).result = false :=
  ⟨rfl, rfl⟩

/-- Claim C1 (amended): requesting an interview report passes the
eligibility gate if and only if at least 2 questions have been answered;
below that threshold the operation fails with the insufficient-data
condition naming the answered count and the required minimum 2. -/
theorem report_gate_minimum_two (s : InterviewSession)
    (stored : Option FinalReport) (gen : FinalReport) :
    (isInsufficientDataError (generate_final_report s stored gen).result = true ↔
      s.question_count < 2) ∧
    (s.question_count < 2 →
      (generate_final_report s stored gen).result = FinalReportResult.httpError 400
        ("Not enough data for evaluation. Only " ++ toString s.question_count ++
         "/6 questions answered. Please answer at least 2 questions.")) := by
  by_cases h : s.question_count < 2
  · simp [generate_final_report, h, isInsufficientDataError]
  · refine ⟨?_, fun hlt => absurd hlt h⟩
    simp only [generate_final_report, if_neg h]
    cases stored with
    | some r => simp [isInsufficientDataError, h]
    | none =>
      have hbind :
          bindKwargs aiAgent_generate_final_report_params finalReport_call_kwargs =
            Except.error "got an unexpected keyword argument questions_answered" := rfl
      rw [hbind]
      simp [isInsufficientDataError, h]

/-- Witness for the amended C1: a request after exactly 1 answered question
is rejected with the insufficient-data condition citing 1 and the required
minimum 2. -/
theorem report_gate_minimum_two_witness :
    (generate_final_report oneAnsweredSession none sampleGenReport).result =
      FinalReportResult.httpError 400
        ("Not enough data for evaluation. Only " ++
         toString oneAnsweredSession.question_count ++
         "/6 questions answered. Please answer at least 2 questions.") :=
  (report_gate_minimum_two oneAnsweredSession none sampleGenReport).2 (by decide)

/-- Claim C2: for every session that passes the eligibility gate and has no
stored report, the report operation always fails with the server error
wrapping the unexpected-keyword-argument TypeError, no narrative-generation
completion call is issued, and no report is saved. -/
theorem final_report_generation_always_raises (s : InterviewSession)
    (gen : FinalReport) (h : 2 ≤ s.question_count) :
    generate_final_report s none gen =
      { result := FinalReportResult.httpError 500
          "Report generation failed: got an unexpected keyword argument questions_answered"
        genCalled := false
        savedReport := none } := by
  simp only [generate_final_report, if_neg (by omega : ¬ s.question_count < 2)]
  rfl

/-- Witness for C2: the session with two answered questions and no stored
report gets the 500 error and nothing is generated or saved. -/
theorem final_report_generation_always_raises_witness :
    generate_final_report twoAnsweredSession none sampleGenReport =
      { result := FinalReportResult.httpError 500
          "Report generation failed: got an unexpected keyword argument questions_answered"
        genCalled := false
        savedReport := none } :=
  final_report_generation_always_raises twoAnsweredSession sampleGenReport (by decide)

/-- Claim C6: report generation is idempotent for both flows — on a
session with a stored report (interview: gate passed; MCQ: complete), the
endpoint returns the stored report unchanged, issues no
narrative-generation call, and writes nothing back. -/
theorem report_requests_idempotent (s : InterviewSession) (r gen : FinalReport)
    (ms : MCQSession) (mr : MCQEvaluationReport) (assessment : Assessment)
    (h1 : 2 ≤ s.question_count) (h2 : ms.is_complete = true) :
    generate_final_report s (some r) gen =
      { result := FinalReportResult.report r
        genCalled := false
        savedReport := none } ∧
    generate_mcq_report ms (some mr) assessment =
      { result := MCQReportResult.report mr
        genCalled := false
        savedReport := none } := by
  constructor
  · simp [generate_final_report, if_neg (by omega : ¬ s.question_count < 2)]
  · simp [generate_mcq_report, h2]

/-- Witness for C6: the completed concrete sessions with their stored
reports get them back verbatim with no generation call. -/
theorem report_requests_idempotent_witness :
    generate_final_report doneSession (some storedInterviewReport) sampleGenReport =
      { result := FinalReportResult.report storedInterviewReport
        genCalled := false
        savedReport := none } ∧
    generate_mcq_report lrCompleted (some storedMcqReport) sampleAssessment =
      { result := MCQReportResult.report storedMcqReport
        genCalled := false
        savedReport := none } :=
  report_requests_idempotent doneSession storedInterviewReport sampleGenReport
    lrCompleted storedMcqReport sampleAssessment (by decide) (by decide)

/-- Claim C7: while an MCQ session is incomplete, the session-detail
endpoint returns every question with the correct-option and explanation
keys removed. -/
theorem incomplete_session_details_redacted (s : MCQSession)
    (h : s.is_complete = false) :
    ((get_mcq_session_details s).questions.all
      (fun q => q.correct_option == none && q.explanation == none)) = true := by
  simp [get_mcq_session_details, h, List.all_eq_true, popAnswerKeys]

/-- Witness for C7: the fresh single-question session's detail carries
neither answer-revealing key. -/
theorem incomplete_session_details_redacted_witness :
    ((get_mcq_session_details lrSession).questions.all
      (fun q => q.correct_option == none && q.explanation == none)) = true :=
  incomplete_session_details_redacted lrSession rfl

/-- One step of the category loop on the singleton dict: the General bucket
is bumped in place. -/
theorem catStep_general (c t : Nat) (a : MCQAnswer) :
    catStep [("General", c, t)] a =
      [("General", c + (if a.is_correct then 1 else 0), t + 1)] := by
  simp [catStep]

/-- Folding the category loop from the singleton General dict accumulates
the correct count and the answer count. -/
theorem foldl_catStep_general (answers : List MCQAnswer) (c t : Nat) :
    answers.foldl catStep [("General", c, t)] =
      [("General", c + countCorrect answers, t + answers.length)] := by
  induction answers generalizing c t with
  | nil => simp [countCorrect]
  | cons a rest ih =>
    rw [List.foldl_cons, catStep_general, ih]
    have hcc : countCorrect (a :: rest) =
        (if a.is_correct then 1 else 0) + countCorrect rest := by
      simp only [countCorrect, List.filter_cons]
      cases a.is_correct <;> simp [Nat.add_comm]
    rw [hcc, List.length_cons]
    have h1 : c + (if a.is_correct then 1 else 0) + countCorrect rest =
        c + ((if a.is_correct then 1 else 0) + countCorrect rest) := by omega
    have h2 : t + 1 + rest.length = t + (rest.length + 1) := by omega
    rw [h1, h2]

/-- The category dict built by the report generator sums to the overall
counts. -/
theorem category_scores_sums (answers : List MCQAnswer) :
    sumCorrect (category_scores answers) = countCorrect answers ∧
    sumTotal (category_scores answers) = answers.length := by
  cases answers with
  | nil => simp [category_scores, sumCorrect, sumTotal, countCorrect]
  | cons a rest =>
    have hstep : catStep [] a =
        [("General", (if a.is_correct then 1 else 0), 1)] := by
      simp [catStep]
    have hcc : countCorrect (a :: rest) =
        (if a.is_correct then 1 else 0) + countCorrect rest := by
      simp only [countCorrect, List.filter_cons]
      cases a.is_correct <;> simp [Nat.add_comm]
    rw [category_scores, List.foldl_cons, hstep, foldl_catStep_general]
    simp [sumCorrect, sumTotal, hcc, Nat.add_comm]

/-- Claim C8: in every generated MCQ evaluation report, the per-category
correct counts sum to the report's overall correct-answer count and the
per-category totals sum to the report's total question count. -/
theorem mcq_category_sums_match (candidate_name resume job_description : String)
    (answers : List MCQAnswer) (assessment : Assessment) :
    sumCorrect (generate_evaluation_report candidate_name resume job_description
        answers assessment).category_scores =
      (generate_evaluation_report candidate_name resume job_description
        answers assessment).correct_answers ∧
    sumTotal (generate_evaluation_report candidate_name resume job_description
        answers assessment).category_scores =
      (generate_evaluation_report candidate_name resume job_description
        answers assessment).total_questions := by
  simpa [generate_evaluation_report] using category_scores_sums answers

/-- Claim C9: the report's score percentage is the correct count divided by
the total count times 100 whenever the total is positive, and exactly 0
when the total is 0; the division is guarded by that very test. -/
theorem mcq_score_percentage_guarded (candidate_name resume job_description : String)
    (answers : List MCQAnswer) (assessment : Assessment) :
    (0 < (generate_evaluation_report candidate_name resume job_description
        answers assessment).total_questions →
      (generate_evaluation_report candidate_name resume job_description
        answers assessment).score_percentage =
        ((generate_evaluation_report candidate_name resume job_description
            answers assessment).correct_answers : Rat) /
          ((generate_evaluation_report candidate_name resume job_description
            answers assessment).total_questions : Rat) * 100) ∧
    ((generate_evaluation_report candidate_name resume job_description
        answers assessment).total_questions = 0 →
      (generate_evaluation_report candidate_name resume job_description
        answers assessment).score_percentage = 0) := by
  constructor <;> intro h <;>
    simp_all [generate_evaluation_report]

/-- Witness for C9: on the empty answer list the total is 0 and the
percentage is exactly 0. -/
theorem mcq_score_percentage_guarded_witness :
    (generate_evaluation_report "Ada Lovelace" "resume text" "jd"
      [] sampleAssessment).score_percentage = 0 :=
  (mcq_score_percentage_guarded "Ada Lovelace" "resume text" "jd"
    [] sampleAssessment).2 rfl

/-- Claim C3 shows a code bug: the completed concrete session originated
from a question whose recorded category is Logical Reasoning, yet the
generated report buckets its one answer under the placeholder key General
— the aggregation never consults the stored question's category. -/
theorem mcq_report_buckets_placeholder_category :
    lrQuestion.category = "Logical Reasoning" ∧
    lrCompleted.is_complete = true ∧
    (generate_evaluation_report "Ada Lovelace" "resume text" "jd"
      lrCompleted.answers sampleAssessment).category_scores = [("General", 1, 1)] :=
  ⟨rfl, rfl, by decide⟩

/-- Claim C10: an in-sequence submission whose selected label matches none
of the stored option labels (case-insensitively) is still accepted: no
error is returned, an answer record is appended whose selected-option text
is empty and whose correctness is just the case-insensitive comparison with
the correct label, and the current-question pointer advances by one. -/
theorem submit_accepts_unknown_label (s : MCQSession) (sel : String)
    (hc : s.is_complete = false)
    (hidx : s.current_question_number < s.questions.length)
    (hnomatch : ∀ opt ∈ (s.questions.get ⟨s.current_question_number, hidx⟩).options,
      upper opt.option ≠ upper sel) :
    MCQSubmitResult.isError
      (submit_mcq_answer s ((s.current_question_number : Int) + 1) sel).1 = false ∧
    (submit_mcq_answer s ((s.current_question_number : Int) + 1) sel).2.answers =
      s.answers ++
        [evaluate_answer (s.questions.get ⟨s.current_question_number, hidx⟩) sel] ∧
    (evaluate_answer (s.questions.get ⟨s.current_question_number, hidx⟩) sel).selected_text
      = "" ∧
    (evaluate_answer (s.questions.get ⟨s.current_question_number, hidx⟩) sel).is_correct
      = (upper sel ==
          upper (s.questions.get ⟨s.current_question_number, hidx⟩).correct_option) ∧
    (submit_mcq_answer s ((s.current_question_number : Int) + 1) sel).2.current_question_number
      = s.current_question_number + 1 := by
  have hq : (((s.current_question_number : Int) + 1) - 1).toNat =
      s.current_question_number := by omega
  have hlt : ¬ s.questions.length ≤ s.current_question_number := by omega
  have hfind : (s.questions.get ⟨s.current_question_number, hidx⟩).options.find?
      (fun opt => upper opt.option == upper sel) = none := by
    rw [List.find?_eq_none]
    intro x hx
    simpa using hnomatch x hx
  simp only [List.get_eq_getElem] at hfind
  refine ⟨?_, ?_, ?_, ?_, ?_⟩
  · simp only [submit_mcq_answer, hc, Bool.false_eq_true, if_false, ne_eq,
      not_true_eq_false, if_neg, hq]
    split
    · exact absurd (by assumption) hlt
    · split <;> rfl
  · simp only [submit_mcq_answer, hc, Bool.false_eq_true, if_false, ne_eq,
      not_true_eq_false, if_neg, hq]
    split
    · exact absurd (by assumption) hlt
    · split <;> simp
  · simp [evaluate_answer, hfind]
  · simp [evaluate_answer]
  · simp only [submit_mcq_answer, hc, Bool.false_eq_true, if_false, ne_eq,
      not_true_eq_false, if_neg, hq]
    split
    · exact absurd (by assumption) hlt
    · split <;> rfl

/-- Witness for C10: submitting the label Z (none of A-D) for the fresh
single-question session is accepted and advances the pointer. -/
theorem submit_accepts_unknown_label_witness :
    MCQSubmitResult.isError
      (submit_mcq_answer lrSession ((lrSession.current_question_number : Int) + 1) "Z").1
      = false ∧
    (submit_mcq_answer lrSession ((lrSession.current_question_number : Int) + 1) "Z").2.current_question_number
      = lrSession.current_question_number + 1 :=
  ⟨(submit_accepts_unknown_label lrSession "Z" rfl (by decide) (by decide)).1,
   (submit_accepts_unknown_label lrSession "Z" rfl (by decide) (by decide)).2.2.2.2⟩

end ChatScreening
